import Mathlib

/-!
Verification of the JSON-Schema-to-model compiler in
`assistant/agents/document/gc_draft_outline_feedback_config.py`.

The Python module is embedded shallowly:

* JSON values (the result of `json.loads`) are the inductive type `Json`.
  Python `dict`s are ordered association lists with unique keys; `dict.get`
  is `pyGet`/`getD`, and `dict.__setitem__` (overwrite keeps the original
  position) is `dictInsert`.  JSON number literals are carried as their
  lexeme: no claim inspects numeric magnitude, only shapes and strings.
* Python exceptions are the error side of `Except PyError _`:
  `attributeError` models calling `.get`/`.items()` on a non-dict value,
  `malformedSchema` models `json.JSONDecodeError`, `recursionError`
  models exhaustion of the interpreter's recursion limit, and `typeError`
  models `dict.get` hashing an unhashable key (a list- or dict-valued
  `type` reaching `type_mapping.get`).
* `create_pydantic_model_from_json_schema` recurses along the schema tree;
  it is embedded as the fuel-indexed `compileFuel` (fuel = remaining
  recursion depth, mirroring Python's recursion limit) and the top-level
  `create_pydantic_model_from_json_schema` runs it with fuel exceeding the
  schema's nesting depth, which is proved sufficient below.
* `pydantic.create_model(name, **fields)` is modelled as plain record
  construction (`PyType.model name fields`); pydantic-internal edge cases
  are outside this repository.  `Field(..., description=d)` is the pair
  `FieldInfo.mk true d`: the ellipsis marks the field required.
-/

/-- A JSON value, as produced by `json.loads`.  Objects are ordered
association lists (Python dicts preserve insertion order); number literals
keep their lexeme. -/
inductive Json where
  | null : Json
  | bool (b : Bool) : Json
  | num (lexeme : String) : Json
  | str (s : String) : Json
  | arr (elems : List Json) : Json
  | obj (fields : List (String × Json)) : Json
deriving Repr

/-- `d.get(key)` on a Python dict represented as an ordered association
list: the first binding of `key`, if any. -/
def pyGet (kvs : List (String × Json)) (key : String) : Option Json :=
  List.lookup key kvs

/-- `d[key] = val` on a Python dict: overwrite in place if the key is
present (keeping its original position), else append. -/
def dictInsert {α : Type} (acc : List (String × α)) (key : String) (val : α) :
    List (String × α) :=
  match acc with
  | [] => [(key, val)]
  | (k, v) :: rest =>
    if k = key then (k, val) :: rest else (k, v) :: dictInsert rest key val

/-- Errors the embedded Python code can raise.  `attributeError` is the
`AttributeError` raised by `.get`/`.items()` on a non-dict value;
`malformedSchema` is `json.JSONDecodeError` from `json.loads`;
`recursionError` is Python's `RecursionError`; `typeError` is the
`TypeError` raised by `dict.get` when the key is unhashable (a `type`
value that is itself a list or a dict). -/
inductive PyError where
  | attributeError : PyError
  | malformedSchema : PyError
  | recursionError : PyError
  | typeError : PyError
deriving Repr, DecidableEq

/-- The data pydantic's `Field(..., description=d)` records for a field:
the ellipsis makes the field required; `description` is the JSON value
passed (Python `None` is `Json.null`). -/
structure FieldInfo where
  required : Bool
  description : Json
deriving Repr

/-- A Python type expression as used for the compiled model's fields:
the primitive targets of `json_type_to_python_type`, `List[_]`, `Any`,
and dynamically created pydantic models (`create_model(name, **fields)`,
one `(type, FieldInfo)` pair per field, in insertion order). -/
inductive PyType where
  | int : PyType
  | str : PyType
  | float : PyType
  | bool : PyType
  | dict : PyType
  | list : PyType
  | any : PyType
  | listOf (elem : PyType) : PyType
  | model (name : String) (fields : List (String × PyType × FieldInfo)) : PyType
deriving Repr

/-- `json_type_to_python_type` from the source: a fixed dict maps the six
recognized JSON type names to Python types via
`type_mapping.get(json_type, Any)`.  `dict.get` hashes its key: a
hashable value not in the table (a missing `type` = `None`, a null, a
bool, a number, an unknown name) falls back to `Any`, while an
unhashable key — a list or a dict — raises `TypeError`. -/
def json_type_to_python_type (json_type : Option Json) :
    Except PyError PyType :=
  match json_type with
  | some (.str s) =>
    if s = "integer" then .ok .int
    else if s = "string" then .ok .str
    else if s = "number" then .ok .float
    else if s = "boolean" then .ok .bool
    else if s = "object" then .ok .dict
    else if s = "array" then .ok .list
    else .ok .any
  | some (.arr _) => .error .typeError
  | some (.obj _) => .error .typeError
  | _ => .ok .any

/-- Python `str.capitalize()`: first character uppercased, the rest
lowercased. -/
def pyCapitalize (s : String) : String :=
  match s.data with
  | [] => ""
  | c :: cs => String.mk (c.toUpper :: cs.map Char.toLower)

/-- Python `v == "lit"` where `v` is an optional JSON value (`None` when
the key was absent): true exactly when `v` is that very string. -/
def eqStr (v : Option Json) (s : String) : Bool :=
  match v with
  | some (.str t) => t = s
  | _ => false

/-- The loop body of the nested `parse_properties`: compile one
`(prop_name, prop_attrs)` entry to the field's `(type, FieldInfo)` pair,
`recur` being the recursive call to the compiler.
`prop_attrs.get(...)` raises `AttributeError` when `prop_attrs` is not a
dict; likewise `items.get("type")` when a present `items` value is not a
dict (`prop_attrs.get("items", {})` defaults an absent one to `{}`). -/
def parseOneProp (recur : Json → String → Except PyError PyType)
    (prop_name : String) (prop_attrs : Json) :
    Except PyError (PyType × FieldInfo) :=
  match prop_attrs with
  | .obj akvs =>
    let description := (pyGet akvs "description").getD .null
    let prop_type := pyGet akvs "type"
    if eqStr prop_type "object" then
      match recur (.obj akvs) (pyCapitalize prop_name) with
      | .error e => .error e
      | .ok nested => .ok (nested, ⟨true, description⟩)
    else if eqStr prop_type "array" then
      match (pyGet akvs "items").getD (.obj []) with
      | .obj ikvs =>
        if eqStr (pyGet ikvs "type") "object" then
          match recur (.obj ikvs) "DynamicModel" with
          | .error e => .error e
          | .ok nested => .ok (.listOf nested, ⟨true, description⟩)
        else
          match json_type_to_python_type (pyGet ikvs "type") with
          | .error e => .error e
          | .ok t => .ok (.listOf t, ⟨true, description⟩)
      | _ => .error .attributeError
    else
      match json_type_to_python_type prop_type with
      | .error e => .error e
      | .ok t => .ok (t, ⟨true, description⟩)
  | _ => .error .attributeError

/-- The iteration of `parse_properties` over `properties.items()`:
process the entries in order, stopping at the first raised error. -/
def parseProps (recur : Json → String → Except PyError PyType) :
    List (String × Json) → Except PyError (List (String × PyType × FieldInfo))
  | [] => .ok []
  | (prop_name, prop_attrs) :: rest =>
    match parseOneProp recur prop_name prop_attrs with
    | .error e => .error e
    | .ok spec =>
      match parseProps recur rest with
      | .error e => .error e
      | .ok others => .ok ((prop_name, spec) :: others)

/-- The body of `create_pydantic_model_from_json_schema`, `recur` being
the recursive call: read `schema.get("properties", {})` (an
`AttributeError` if `schema` is not a dict), parse the properties (an
`AttributeError` if that value is not a dict), and build the model's
field dict in iteration order via `create_model(model_name, **fields)`. -/
def compileStep (recur : Json → String → Except PyError PyType)
    (schema : Json) (model_name : String) : Except PyError PyType :=
  match schema with
  | .obj kvs =>
    match (pyGet kvs "properties").getD (.obj []) with
    | .obj props =>
      match parseProps recur props with
      | .error e => .error e
      | .ok specs =>
        .ok (.model model_name
          (specs.foldl (fun acc kv => dictInsert acc kv.1 kv.2) []))
    | _ => .error .attributeError
  | _ => .error .attributeError

/-- `create_pydantic_model_from_json_schema`, fuel-indexed: `fuel` is the
remaining recursion depth (Python's recursion limit), spent once per
nested compiler invocation. -/
def compileFuel : Nat → Json → String → Except PyError PyType
  | 0 => fun _ _ => .error .recursionError
  | fuel + 1 => compileStep (compileFuel fuel)

mutual

/-- Nesting depth of a JSON tree: leaves have depth 0, an array or object
is one deeper than its deepest child. -/
def depthJ : Json → Nat
  | .null | .bool _ | .num _ | .str _ => 0
  | .arr elems => 1 + depthList elems
  | .obj kvs => 1 + depthFields kvs

/-- Greatest depth among a list of JSON values. -/
def depthList : List Json → Nat
  | [] => 0
  | j :: rest => max (depthJ j) (depthList rest)

/-- Greatest depth among the values of an association list. -/
def depthFields : List (String × Json) → Nat
  | [] => 0
  | (_, j) :: rest => max (depthJ j) (depthFields rest)

end

/-- `create_pydantic_model_from_json_schema(schema, model_name)`: run the
fuel-indexed compiler with fuel exceeding the schema's nesting depth
(proved sufficient below: more fuel never changes the result, and the
recursion-limit error is never hit). -/
def create_pydantic_model_from_json_schema
    (schema : Json) (model_name : String := "DynamicModel") :
    Except PyError PyType :=
  compileFuel (depthJ schema + 1) schema model_name

/-! ### The JSON text layer

`json.loads` / `json.dumps(..., indent=2)` are Python standard-library
functions, not code of this repository; they are modelled here by a
recursive-descent parser and printer for the JSON grammar.  Python dict
construction from parsed pairs (later duplicate wins, first position kept)
is `dictInsert`; `\u` escapes ignore surrogate pairing, which no input in
this development uses. -/

/-- JSON whitespace (space, tab, newline, carriage return). -/
def isJsonWs (c : Char) : Bool :=
  c = ' ' || c = '\t' || c = '\n' || c = '\r'

/-- Drop leading JSON whitespace. -/
def skipWs : List Char → List Char
  | [] => []
  | c :: rest => if isJsonWs c then skipWs rest else c :: rest

/-- Value of a hexadecimal digit. -/
def hexVal (c : Char) : Option Nat :=
  if '0' ≤ c ∧ c ≤ '9' then some (c.toNat - '0'.toNat)
  else if 'a' ≤ c ∧ c ≤ 'f' then some (c.toNat - 'a'.toNat + 10)
  else if 'A' ≤ c ∧ c ≤ 'F' then some (c.toNat - 'A'.toNat + 10)
  else none

/-- Parse the body of a JSON string (the opening quote already consumed):
escape sequences are decoded, an unescaped control character or an
unterminated string is an error.  `acc` holds the decoded prefix
reversed. -/
def parseStringBody : List Char → List Char → Option (String × List Char)
  | _, [] => none
  | acc, c :: rest =>
    if c = '"' then some (String.mk acc.reverse, rest)
    else if c = '\\' then
      match rest with
      | [] => none
      | e :: rest' =>
        if e = '"' then parseStringBody ('"' :: acc) rest'
        else if e = '\\' then parseStringBody ('\\' :: acc) rest'
        else if e = '/' then parseStringBody ('/' :: acc) rest'
        else if e = 'n' then parseStringBody ('\n' :: acc) rest'
        else if e = 't' then parseStringBody ('\t' :: acc) rest'
        else if e = 'r' then parseStringBody ('\r' :: acc) rest'
        else if e = 'b' then parseStringBody ('\x08' :: acc) rest'
        else if e = 'f' then parseStringBody ('\x0c' :: acc) rest'
        else if e = 'u' then
          match rest' with
          | h1 :: h2 :: h3 :: h4 :: rest'' =>
            match hexVal h1, hexVal h2, hexVal h3, hexVal h4 with
            | some a, some b, some c', some d =>
              parseStringBody
                (Char.ofNat (((a * 16 + b) * 16 + c') * 16 + d) :: acc) rest''
            | _, _, _, _ => none
          | _ => none
        else none
    else if c.toNat < 32 then none
    else parseStringBody (c :: acc) rest

/-- ASCII decimal digit test. -/
def isDig (c : Char) : Bool := '0' ≤ c && c ≤ '9'

/-- Split a longest prefix of digits off a character list. -/
def takeDigits : List Char → List Char × List Char
  | [] => ([], [])
  | c :: rest =>
    if isDig c then
      let (ds, r) := takeDigits rest
      (c :: ds, r)
    else ([], c :: rest)

/-- Parse the optional fraction part of a JSON number (lexeme, rest). -/
def parseFrac (cs : List Char) : Option (List Char × List Char) :=
  match cs with
  | '.' :: rest =>
    let (ds, r) := takeDigits rest
    if ds.isEmpty then none else some ('.' :: ds, r)
  | _ => some ([], cs)

/-- Parse the optional exponent part of a JSON number (lexeme, rest). -/
def parseExpPart (cs : List Char) : Option (List Char × List Char) :=
  match cs with
  | c :: rest =>
    if c = 'e' ∨ c = 'E' then
      let (sgn, rest') :=
        match rest with
        | s :: r => if s = '+' ∨ s = '-' then ([s], r) else (([] : List Char), rest)
        | [] => ([], rest)
      let (ds, r) := takeDigits rest'
      if ds.isEmpty then none else some (c :: (sgn ++ ds), r)
    else some ([], cs)
  | [] => some ([], [])

/-- Parse a JSON number, returning its lexeme: optional minus, an integer
part with no superfluous leading zero, optional fraction and exponent. -/
def parseNumber (cs : List Char) : Option (String × List Char) :=
  let (sign, cs1) :=
    match cs with
    | '-' :: r => (['-'], r)
    | _ => (([] : List Char), cs)
  match cs1 with
  | [] => none
  | c :: _ =>
    if ¬ isDig c then none
    else
      let (ds, cs2) := takeDigits cs1
      if 1 < ds.length ∧ ds.head? = some '0' then none
      else
        match parseFrac cs2 with
        | none => none
        | some (fs, cs3) =>
          match parseExpPart cs3 with
          | none => none
          | some (es, cs4) => some (String.mk (sign ++ ds ++ fs ++ es), cs4)

mutual

/-- Recursive-descent parser for one JSON value (fuel bounds the
recursion, modelling the interpreter's recursion limit). -/
def parseValueFuel : Nat → List Char → Option (Json × List Char)
  | 0, _ => none
  | fuel + 1, cs =>
    match cs with
    | [] => none
    | '"' :: rest => (parseStringBody [] rest).map (fun p => (Json.str p.1, p.2))
    | '\x7b' :: rest =>
      match skipWs rest with
      | '\x7d' :: r => some (.obj [], r)
      | r => parseMembersFuel fuel r []
    | '[' :: rest =>
      match skipWs rest with
      | ']' :: r => some (.arr [], r)
      | r => parseElementsFuel fuel r []
    | 't' :: rest =>
      match rest with
      | 'r' :: 'u' :: 'e' :: r => some (.bool true, r)
      | _ => none
    | 'f' :: rest =>
      match rest with
      | 'a' :: 'l' :: 's' :: 'e' :: r => some (.bool false, r)
      | _ => none
    | 'n' :: rest =>
      match rest with
      | 'u' :: 'l' :: 'l' :: r => some (.null, r)
      | _ => none
    | _ => (parseNumber cs).map (fun p => (Json.num p.1, p.2))

/-- Members of a non-empty JSON object; `acc` is the dict built so far,
extended with Python dict-insertion semantics. -/
def parseMembersFuel : Nat → List Char → List (String × Json) →
    Option (Json × List Char)
  | 0, _, _ => none
  | fuel + 1, cs, acc =>
    match skipWs cs with
    | '"' :: rest =>
      match parseStringBody [] rest with
      | none => none
      | some (key, r1) =>
        match skipWs r1 with
        | ':' :: r2 =>
          match parseValueFuel fuel (skipWs r2) with
          | none => none
          | some (v, r3) =>
            match skipWs r3 with
            | ',' :: r4 => parseMembersFuel fuel r4 (dictInsert acc key v)
            | '\x7d' :: r4 => some (.obj (dictInsert acc key v), r4)
            | _ => none
        | _ => none
    | _ => none

/-- Elements of a non-empty JSON array; `acc` holds parsed elements
reversed. -/
def parseElementsFuel : Nat → List Char → List Json →
    Option (Json × List Char)
  | 0, _, _ => none
  | fuel + 1, cs, acc =>
    match parseValueFuel fuel (skipWs cs) with
    | none => none
    | some (v, r1) =>
      match skipWs r1 with
      | ',' :: r2 => parseElementsFuel fuel r2 (v :: acc)
      | ']' :: r2 => some (.arr (v :: acc).reverse, r2)
      | _ => none

end

/-- `json.loads`: parse a complete JSON document, allowing surrounding
whitespace; anything else is a `JSONDecodeError` (`malformedSchema`). -/
def json_loads (s : String) : Except PyError Json :=
  match parseValueFuel (2 * s.length + 16) (skipWs s.data) with
  | some (v, rest) =>
    if (skipWs rest).isEmpty then .ok v else .error .malformedSchema
  | none => .error .malformedSchema

/-- `n` spaces. -/
def spaces (n : Nat) : String := String.mk (List.replicate n ' ')

/-- Serialize one character of a JSON string, escaping as `json.dumps`
does for the characters that occur in this development's data. -/
def escapeChar (c : Char) : List Char :=
  if c = '"' then ['\\', '"']
  else if c = '\\' then ['\\', '\\']
  else if c = '\n' then ['\\', 'n']
  else if c = '\t' then ['\\', 't']
  else if c = '\r' then ['\\', 'r']
  else [c]

/-- Serialize a JSON string with quotes and escapes. -/
def dumpString (s : String) : String :=
  "\"" ++ String.mk (s.data.map escapeChar).flatten ++ "\""

/-- One level of `json.dumps(v, indent=2)` at the given indentation
level, `recur` serializing the children one level deeper. -/
def dumpStep (recur : Json → Nat → String) : Json → Nat → String
  | .null, _ => "null"
  | .bool true, _ => "true"
  | .bool false, _ => "false"
  | .num lx, _ => lx
  | .str s, _ => dumpString s
  | .arr [], _ => "[]"
  | .arr (e :: es), lvl =>
    "[\n" ++ spaces (lvl + 2) ++
      String.intercalate (",\n" ++ spaces (lvl + 2))
        ((e :: es).map (fun x => recur x (lvl + 2))) ++
      "\n" ++ spaces lvl ++ "]"
  | .obj [], _ => "\x7b\x7d"
  | .obj (kv :: kvs), lvl =>
    "\x7b\n" ++ spaces (lvl + 2) ++
      String.intercalate (",\n" ++ spaces (lvl + 2))
        ((kv :: kvs).map (fun p => dumpString p.1 ++ ": " ++ recur p.2 (lvl + 2))) ++
      "\n" ++ spaces lvl ++ "\x7d"

/-- Depth-fueled `json.dumps(v, indent=2)` serializer. -/
def dumpFuel : Nat → Json → Nat → String
  | 0 => fun _ _ => ""
  | fuel + 1 => dumpStep (dumpFuel fuel)

/-- `json.dumps(v, indent=2)`: the fuel exceeds the value's nesting
depth, so the fuel-exhaustion branch is never taken. -/
def jsonDumps2 (v : Json) : String := dumpFuel (depthJ v + 1) v 0

/-- Modelled from pydantic: `ArtifactModel.model_json_schema()`, the JSON
schema of the source's fixed two-field `ArtifactModel` (two required
string fields with descriptions and generated titles). -/
def ArtifactModel_json_schema : Json :=
  .obj [
    ("properties", .obj [
      ("final_response", .obj [
        ("description", .str "The final response from the agent to the user."),
        ("title", .str "Final Response"),
        ("type", .str "string")]),
      ("conversation_status", .obj [
        ("description", .str "The status of the conversation."),
        ("title", .str "Conversation Status"),
        ("type", .str "string")])]),
    ("required", .arr [.str "final_response", .str "conversation_status"]),
    ("title", .str "ArtifactModel"),
    ("type", .str "object")]

/-- The default value of the `artifact` configuration field:
`json.dumps(ArtifactModel.model_json_schema(), indent=2)`. -/
def default_artifact : String := jsonDumps2 ArtifactModel_json_schema

/-- `GCDraftOutlineFeedbackConfigModel.get_artifact_model`: deserialize
the stored `artifact` string and compile it. -/
def get_artifact_model (artifact : String) : Except PyError PyType :=
  match json_loads artifact with
  | .error e => .error e
  | .ok schema => create_pydantic_model_from_json_schema schema

/-- A `type` value usable as a `dict.get` key: everything except lists
and dicts, which are unhashable and make `type_mapping.get` raise
`TypeError`. -/
def hashableType : Option Json → Bool
  | some (.arr _) => false
  | some (.obj _) => false
  | _ => true

/-- Shape well-formedness of one property's attribute node, `recur`
checking nested schemas: every value the compiler accesses as a dict is
one, and every `type` value that reaches the primitive-table lookup is
hashable. -/
def wellShapedProp (recur : Json → Bool) : Json → Bool
  | .obj akvs =>
    if eqStr (pyGet akvs "type") "object" then recur (.obj akvs)
    else if eqStr (pyGet akvs "type") "array" then
      match (pyGet akvs "items").getD (.obj []) with
      | .obj ikvs =>
        if eqStr (pyGet ikvs "type") "object" then recur (.obj ikvs)
        else hashableType (pyGet ikvs "type")
      | _ => false
    else hashableType (pyGet akvs "type")
  | _ => false

/-- Shape well-formedness of a schema node: it is a dict, its
`properties` value (defaulted to the empty dict) is a dict, and every
property's attribute node is well shaped. -/
def wellShapedStep (recur : Json → Bool) : Json → Bool
  | .obj kvs =>
    match (pyGet kvs "properties").getD (.obj []) with
    | .obj props => props.all (fun p => wellShapedProp recur p.2)
    | _ => false
  | _ => false

/-- Depth-fueled shape well-formedness. -/
def wellShapedFuel : Nat → Json → Bool
  | 0 => fun _ => false
  | fuel + 1 => wellShapedStep (wellShapedFuel fuel)

/-- A schema is shape-well-formed when every value the compiler accesses
as a dict (the schema itself, its `properties` value when present, each
property's attribute node, each present `items` value) is a dict, and
every `type` value that reaches the primitive-table lookup is hashable
(not a list or dict), at every nesting level the compiler visits. -/
def wellShaped (s : Json) : Bool := wellShapedFuel (depthJ s + 1) s

/-! ### Basic lemmas: dict insertion, lookup and depth -/

theorem dictInsert_not_mem {α : Type} (key : String) (val : α) :
    ∀ acc : List (String × α), key ∉ acc.map Prod.fst →
      dictInsert acc key val = acc ++ [(key, val)] := by
  intro acc
  induction acc with
  | nil => intro _; rfl
  | cons kv rest ih =>
    intro h
    simp only [List.map_cons, List.mem_cons] at h
    push_neg at h
    obtain ⟨kv1, kv2⟩ := kv
    simp only [dictInsert]
    rw [if_neg (by simpa using (h.1).symm), ih h.2]
    simp

theorem foldl_dictInsert_nodup {α : Type} :
    ∀ (l acc : List (String × α)),
      (acc.map Prod.fst ++ l.map Prod.fst).Nodup →
      l.foldl (fun acc kv => dictInsert acc kv.1 kv.2) acc = acc ++ l := by
  intro l
  induction l with
  | nil => intro acc _; simp
  | cons kv rest ih =>
    intro acc h
    have hnotin : kv.1 ∉ acc.map Prod.fst := by
      intro hmem
      exact (List.nodup_append.mp h).2.2 hmem (by simp)
    rw [List.foldl_cons, dictInsert_not_mem _ _ _ hnotin,
      ih (acc ++ [kv]) (by simpa using h)]
    simp

theorem pyGet_depth :
    ∀ (kvs : List (String × Json)) (key : String) (v : Json),
      pyGet kvs key = some v → depthJ v ≤ depthFields kvs := by
  intro kvs key
  induction kvs with
  | nil => intro v h; simp [pyGet, List.lookup] at h
  | cons kv rest ih =>
    intro v h
    obtain ⟨k, w⟩ := kv
    simp only [pyGet, List.lookup] at h
    split at h
    · cases h
      exact le_trans le_rfl (le_max_left _ _)
    · exact le_trans (ih v h) (le_max_right _ _)

theorem mem_depthFields :
    ∀ (props : List (String × Json)) (p : String × Json),
      p ∈ props → depthJ p.2 ≤ depthFields props := by
  intro props
  induction props with
  | nil => intro p h; cases h
  | cons kv rest ih =>
    intro p h
    obtain ⟨k, w⟩ := kv
    rcases List.mem_cons.mp h with h' | h'
    · subst h'
      exact le_max_left _ _
    · exact le_trans (ih p h') (le_max_right _ _)

/-- Bound on a defaulted `items`/`properties` access: the result of
`d.get(key, {})`, when a dict, is at most one level deeper than the
values of `d`. -/
theorem getD_obj_depth {akvs : List (String × Json)} {key : String}
    {ikvs : List (String × Json)}
    (h : (pyGet akvs key).getD (.obj []) = .obj ikvs) :
    depthJ (.obj ikvs) ≤ 1 + depthFields akvs := by
  cases hp : pyGet akvs key with
  | none =>
    rw [hp] at h
    simp only [Option.getD_none] at h
    cases h
    simp [depthJ, depthFields]
  | some v =>
    rw [hp] at h
    simp only [Option.getD_some] at h
    subst h
    exact le_trans (pyGet_depth _ _ _ hp) (by omega)

/-- The primitive-table lookup fails only with `typeError`. -/
theorem json_type_err (v : Option Json) :
    ∀ e, json_type_to_python_type v = .error e → e = .typeError := by
  intro e h
  cases v with
  | none => cases h
  | some j =>
    cases j with
    | str s =>
      simp only [json_type_to_python_type] at h
      split_ifs at h
    | null => cases h
    | bool b => cases h
    | num lx => cases h
    | arr es => injection h with h'; exact h'.symm
    | obj kvs => injection h with h'; exact h'.symm

/-- The primitive-table lookup succeeds on every hashable `type`
value. -/
theorem hashableType_ok (v : Option Json) (h : hashableType v = true) :
    ∃ t, json_type_to_python_type v = .ok t := by
  cases v with
  | none => exact ⟨.any, rfl⟩
  | some j =>
    cases j with
    | str s =>
      simp only [json_type_to_python_type]
      split_ifs <;> exact ⟨_, rfl⟩
    | null => exact ⟨.any, rfl⟩
    | bool b => exact ⟨.any, rfl⟩
    | num lx => exact ⟨.any, rfl⟩
    | arr es => cases h
    | obj kvs => cases h

/-! ### Fuel congruence: with fuel beyond the nesting depth, the
compiler's result does not depend on the fuel -/

theorem parseOneProp_congr {f g : Json → String → Except PyError PyType}
    (nm : String) (attrs : Json)
    (h : ∀ j s, depthJ j ≤ depthJ attrs → f j s = g j s) :
    parseOneProp f nm attrs = parseOneProp g nm attrs := by
  cases attrs with
  | obj akvs =>
    simp only [parseOneProp]
    by_cases h1 : eqStr (pyGet akvs "type") "object" = true
    · simp only [h1, if_true]
      rw [h _ _ le_rfl]
    · simp only [Bool.not_eq_true] at h1
      simp only [h1, Bool.false_eq_true, if_false]
      by_cases h2 : eqStr (pyGet akvs "type") "array" = true
      · simp only [h2, if_true]
        cases hitems : (pyGet akvs "items").getD (.obj []) with
        | obj ikvs =>
          have hd : depthJ (.obj ikvs) ≤ depthJ (.obj akvs) := by
            have h0 := getD_obj_depth hitems
            simp only [depthJ] at h0 ⊢
            omega
          by_cases h3 : eqStr (pyGet ikvs "type") "object" = true
          · simp only [h3, if_true]
            rw [h _ _ hd]
          · simp only [Bool.not_eq_true] at h3
            simp only [h3, Bool.false_eq_true, if_false]
        | null => rfl
        | bool b => rfl
        | num lx => rfl
        | str s => rfl
        | arr elems => rfl
      · simp only [Bool.not_eq_true] at h2
        simp only [h2, Bool.false_eq_true, if_false]
  | null => rfl
  | bool b => rfl
  | num lx => rfl
  | str s => rfl
  | arr elems => rfl

theorem parseProps_congr {f g : Json → String → Except PyError PyType} :
    ∀ props : List (String × Json),
      (∀ p ∈ props, ∀ j s, depthJ j ≤ depthJ p.2 → f j s = g j s) →
      parseProps f props = parseProps g props := by
  intro props
  induction props with
  | nil => intro _; rfl
  | cons kv rest ih =>
    intro h
    obtain ⟨nm, attrs⟩ := kv
    simp only [parseProps]
    rw [parseOneProp_congr nm attrs (h (nm, attrs) (by simp)),
      ih (fun p hp => h p (by simp [hp]))]

theorem compileStep_congr {f g : Json → String → Except PyError PyType}
    (schema : Json) (name : String)
    (h : ∀ j s, depthJ j + 2 ≤ depthJ schema → f j s = g j s) :
    compileStep f schema name = compileStep g schema name := by
  cases schema with
  | obj kvs =>
    simp only [compileStep]
    cases hp : pyGet kvs "properties" with
    | none => simp only [hp, Option.getD_none]; rfl
    | some v =>
      cases v with
      | obj props =>
        simp only [hp, Option.getD_some]
        have harg : ∀ p ∈ props, ∀ j s, depthJ j ≤ depthJ p.2 → f j s = g j s := by
          intro p hp2 j s hj
          apply h
          have h1 : depthJ p.2 ≤ depthFields props := mem_depthFields props p hp2
          have h2 : depthJ (.obj props) ≤ depthFields kvs := pyGet_depth kvs _ _ hp
          simp only [depthJ] at h2 ⊢
          omega
        rw [parseProps_congr props harg]
      | null => simp [hp]
      | bool b => simp [hp]
      | num lx => simp [hp]
      | str s => simp [hp]
      | arr elems => simp [hp]
  | null => rfl
  | bool b => rfl
  | num lx => rfl
  | str s => rfl
  | arr elems => rfl

theorem compileFuel_stable :
    ∀ (n m : Nat) (s : Json) (name : String),
      depthJ s < n → depthJ s < m →
      compileFuel n s name = compileFuel m s name := by
  intro n
  induction n with
  | zero => intro m s name hn _; exact absurd hn (Nat.not_lt_zero _)
  | succ n ih =>
    intro m s name hn hm
    cases m with
    | zero => exact absurd hm (Nat.not_lt_zero _)
    | succ m' =>
      show compileStep (compileFuel n) s name = compileStep (compileFuel m') s name
      apply compileStep_congr
      intro j t hj
      exact ih m' j t (by omega) (by omega)


/-! ### Error classification: with fuel beyond the nesting depth, the
only errors the compiler can raise are `attributeError` and
`typeError` -/

theorem parseOneProp_err {f : Json → String → Except PyError PyType}
    (nm : String) (attrs : Json)
    (h : ∀ j s, depthJ j ≤ depthJ attrs →
      ∀ e, f j s = .error e → e = .attributeError ∨ e = .typeError) :
    ∀ e, parseOneProp f nm attrs = .error e →
      e = .attributeError ∨ e = .typeError := by
  cases attrs with
  | obj akvs =>
    intro e he
    simp only [parseOneProp] at he
    by_cases h1 : eqStr (pyGet akvs "type") "object" = true
    · simp only [h1, if_true] at he
      cases hf : f (.obj akvs) (pyCapitalize nm) with
      | error e' =>
        rw [hf] at he
        injection he with he'
        subst he'
        exact h _ _ le_rfl _ hf
      | ok nested => rw [hf] at he; cases he
    · simp only [Bool.not_eq_true] at h1
      simp only [h1, Bool.false_eq_true, if_false] at he
      by_cases h2 : eqStr (pyGet akvs "type") "array" = true
      · simp only [h2, if_true] at he
        cases hitems : (pyGet akvs "items").getD (.obj []) with
        | obj ikvs =>
          rw [hitems] at he
          have hd : depthJ (.obj ikvs) ≤ depthJ (.obj akvs) := by
            have h0 := getD_obj_depth hitems
            simp only [depthJ] at h0 ⊢
            omega
          by_cases h3 : eqStr (pyGet ikvs "type") "object" = true
          · simp only [h3, if_true] at he
            cases hf : f (.obj ikvs) "DynamicModel" with
            | error e' =>
              rw [hf] at he
              injection he with he'
              subst he'
              exact h _ _ hd _ hf
            | ok nested => rw [hf] at he; cases he
          · simp only [Bool.not_eq_true] at h3
            simp only [h3, Bool.false_eq_true, if_false] at he
            cases hjt : json_type_to_python_type (pyGet ikvs "type") with
            | error e' =>
              rw [hjt] at he
              injection he with he'
              subst he'
              exact Or.inr (json_type_err _ _ hjt)
            | ok t => rw [hjt] at he; cases he
        | null => rw [hitems] at he; injection he with he'; exact Or.inl he'.symm
        | bool b => rw [hitems] at he; injection he with he'; exact Or.inl he'.symm
        | num lx => rw [hitems] at he; injection he with he'; exact Or.inl he'.symm
        | str s => rw [hitems] at he; injection he with he'; exact Or.inl he'.symm
        | arr elems => rw [hitems] at he; injection he with he'; exact Or.inl he'.symm
      · simp only [Bool.not_eq_true] at h2
        simp only [h2, Bool.false_eq_true, if_false] at he
        cases hjt : json_type_to_python_type (pyGet akvs "type") with
        | error e' =>
          rw [hjt] at he
          injection he with he'
          subst he'
          exact Or.inr (json_type_err _ _ hjt)
        | ok t => rw [hjt] at he; cases he
  | null => intro e he; injection he with he'; exact Or.inl he'.symm
  | bool b => intro e he; injection he with he'; exact Or.inl he'.symm
  | num lx => intro e he; injection he with he'; exact Or.inl he'.symm
  | str s => intro e he; injection he with he'; exact Or.inl he'.symm
  | arr elems => intro e he; injection he with he'; exact Or.inl he'.symm

theorem parseProps_err {f : Json → String → Except PyError PyType} :
    ∀ props : List (String × Json),
      (∀ p ∈ props, ∀ e, parseOneProp f p.1 p.2 = .error e →
        e = .attributeError ∨ e = .typeError) →
      ∀ e, parseProps f props = .error e →
        e = .attributeError ∨ e = .typeError := by
  intro props
  induction props with
  | nil => intro _ e he; simp [parseProps] at he
  | cons kv rest ih =>
    intro h e he
    obtain ⟨nm, attrs⟩ := kv
    simp only [parseProps] at he
    cases h1 : parseOneProp f nm attrs with
    | error e' =>
      rw [h1] at he
      injection he with he'
      subst he'
      exact h (nm, attrs) (by simp) _ h1
    | ok spec =>
      rw [h1] at he
      cases h2 : parseProps f rest with
      | error e' =>
        rw [h2] at he
        injection he with he'
        subst he'
        exact ih (fun p hp => h p (by simp [hp])) _ h2
      | ok others => rw [h2] at he; cases he

theorem compileStep_err {f : Json → String → Except PyError PyType}
    (schema : Json) (name : String)
    (h : ∀ j s, depthJ j + 2 ≤ depthJ schema →
      ∀ e, f j s = .error e → e = .attributeError ∨ e = .typeError) :
    ∀ e, compileStep f schema name = .error e →
      e = .attributeError ∨ e = .typeError := by
  cases schema with
  | obj kvs =>
    intro e he
    simp only [compileStep] at he
    cases hp : pyGet kvs "properties" with
    | none =>
      rw [hp] at he
      simp only [Option.getD_none] at he
      simp [parseProps] at he
    | some v =>
      cases v with
      | obj props =>
        rw [hp] at he
        simp only [Option.getD_some] at he
        cases hps : parseProps f props with
        | error e' =>
          rw [hps] at he
          injection he with he'
          subst he'
          refine parseProps_err props ?_ _ hps
          intro p hp2 e2 he2
          refine parseOneProp_err p.1 p.2 ?_ e2 he2
          intro j s hj e3 he3
          refine h j s ?_ e3 he3
          have h1 := mem_depthFields props p hp2
          have h2 := pyGet_depth kvs _ _ hp
          simp only [depthJ] at h2 ⊢
          omega
        | ok specs => rw [hps] at he; cases he
      | null => rw [hp] at he; simp only [Option.getD_some] at he; injection he with he'; exact Or.inl he'.symm
      | bool b => rw [hp] at he; simp only [Option.getD_some] at he; injection he with he'; exact Or.inl he'.symm
      | num lx => rw [hp] at he; simp only [Option.getD_some] at he; injection he with he'; exact Or.inl he'.symm
      | str s => rw [hp] at he; simp only [Option.getD_some] at he; injection he with he'; exact Or.inl he'.symm
      | arr elems => rw [hp] at he; simp only [Option.getD_some] at he; injection he with he'; exact Or.inl he'.symm
  | null => intro e he; injection he with he'; exact Or.inl he'.symm
  | bool b => intro e he; injection he with he'; exact Or.inl he'.symm
  | num lx => intro e he; injection he with he'; exact Or.inl he'.symm
  | str s => intro e he; injection he with he'; exact Or.inl he'.symm
  | arr elems => intro e he; injection he with he'; exact Or.inl he'.symm

theorem compileFuel_err :
    ∀ (n : Nat) (s : Json) (name : String), depthJ s < n →
      ∀ e, compileFuel n s name = .error e →
        e = .attributeError ∨ e = .typeError := by
  intro n
  induction n with
  | zero => intro s name h; exact absurd h (Nat.not_lt_zero _)
  | succ n ih =>
    intro s name hn e he
    have he' : compileStep (compileFuel n) s name = .error e := he
    refine compileStep_err s name ?_ e he'
    intro j t hj e2 he2
    exact ih j t (by omega) e2 he2

theorem create_pydantic_err (s : Json) (name : String) :
    ∀ e, create_pydantic_model_from_json_schema s name = .error e →
      e = .attributeError ∨ e = .typeError := by
  intro e he
  exact compileFuel_err (depthJ s + 1) s name (by omega) e he

/-! ### Success: a shape-well-formed schema always compiles to a model -/

theorem parseOneProp_ok {f : Json → String → Except PyError PyType}
    {w : Json → Bool} (nm : String) (attrs : Json)
    (hw : wellShapedProp w attrs = true)
    (h : ∀ j s, depthJ j ≤ depthJ attrs → w j = true → ∃ m, f j s = .ok m) :
    ∃ spec, parseOneProp f nm attrs = .ok spec := by
  cases attrs with
  | obj akvs =>
    simp only [parseOneProp]
    simp only [wellShapedProp] at hw
    by_cases h1 : eqStr (pyGet akvs "type") "object" = true
    · simp only [h1, if_true] at hw ⊢
      obtain ⟨m, hm⟩ := h _ (pyCapitalize nm) le_rfl hw
      rw [hm]
      exact ⟨_, rfl⟩
    · simp only [Bool.not_eq_true] at h1
      simp only [h1, Bool.false_eq_true, if_false] at hw ⊢
      by_cases h2 : eqStr (pyGet akvs "type") "array" = true
      · simp only [h2, if_true] at hw ⊢
        cases hitems : (pyGet akvs "items").getD (.obj []) with
        | obj ikvs =>
          rw [hitems] at hw
          have hd : depthJ (.obj ikvs) ≤ depthJ (.obj akvs) := by
            have h0 := getD_obj_depth hitems
            simp only [depthJ] at h0 ⊢
            omega
          by_cases h3 : eqStr (pyGet ikvs "type") "object" = true
          · simp only [h3, if_true] at hw ⊢
            obtain ⟨m, hm⟩ := h _ "DynamicModel" hd hw
            rw [hm]
            exact ⟨_, rfl⟩
          · simp only [Bool.not_eq_true] at h3
            simp only [h3, Bool.false_eq_true, if_false] at hw ⊢
            obtain ⟨t, ht⟩ := hashableType_ok _ hw
            rw [ht]
            exact ⟨_, rfl⟩
        | null => rw [hitems] at hw; simp at hw
        | bool b => rw [hitems] at hw; simp at hw
        | num lx => rw [hitems] at hw; simp at hw
        | str s => rw [hitems] at hw; simp at hw
        | arr elems => rw [hitems] at hw; simp at hw
      · simp only [Bool.not_eq_true] at h2
        simp only [h2, Bool.false_eq_true, if_false] at hw ⊢
        obtain ⟨t, ht⟩ := hashableType_ok _ hw
        rw [ht]
        exact ⟨_, rfl⟩
  | null => simp [wellShapedProp] at hw
  | bool b => simp [wellShapedProp] at hw
  | num lx => simp [wellShapedProp] at hw
  | str s => simp [wellShapedProp] at hw
  | arr elems => simp [wellShapedProp] at hw

theorem parseProps_ok {f : Json → String → Except PyError PyType}
    {w : Json → Bool} :
    ∀ props : List (String × Json),
      (∀ p ∈ props, wellShapedProp w p.2 = true) →
      (∀ p ∈ props, ∀ j s, depthJ j ≤ depthJ p.2 → w j = true →
        ∃ m, f j s = .ok m) →
      ∃ specs, parseProps f props = .ok specs := by
  intro props
  induction props with
  | nil => intro _ _; exact ⟨[], rfl⟩
  | cons kv rest ih =>
    intro hw h
    obtain ⟨nm, attrs⟩ := kv
    simp only [parseProps]
    obtain ⟨spec, hspec⟩ :=
      parseOneProp_ok nm attrs (hw (nm, attrs) (by simp)) (h (nm, attrs) (by simp))
    rw [hspec]
    obtain ⟨others, hothers⟩ :=
      ih (fun p hp => hw p (by simp [hp])) (fun p hp => h p (by simp [hp]))
    rw [hothers]
    exact ⟨_, rfl⟩

theorem compileStep_ok {f : Json → String → Except PyError PyType}
    {w : Json → Bool} (schema : Json) (name : String)
    (hw : wellShapedStep w schema = true)
    (h : ∀ j s, w j = true → ∃ m, f j s = .ok m) :
    ∃ m, compileStep f schema name = .ok m := by
  cases schema with
  | obj kvs =>
    simp only [compileStep]
    simp only [wellShapedStep] at hw
    cases hp : pyGet kvs "properties" with
    | none =>
      simp only [hp, Option.getD_none]
      exact ⟨_, rfl⟩
    | some v =>
      rw [hp] at hw
      simp only [Option.getD_some] at hw
      cases v with
      | obj props =>
        simp only [hp, Option.getD_some]
        have hwprops : ∀ p ∈ props, wellShapedProp w p.2 = true := by
          intro p hp2
          exact List.all_eq_true.mp hw p hp2
        obtain ⟨specs, hspecs⟩ :=
          parseProps_ok props hwprops (fun p _ j s _ hwj => h j s hwj)
        rw [hspecs]
        exact ⟨_, rfl⟩
      | null => cases hw
      | bool b => cases hw
      | num lx => cases hw
      | str s => cases hw
      | arr elems => cases hw
  | null => cases hw
  | bool b => cases hw
  | num lx => cases hw
  | str s => cases hw
  | arr elems => cases hw

theorem compileFuel_ok :
    ∀ (n : Nat) (s : Json) (name : String),
      wellShapedFuel n s = true → ∃ m, compileFuel n s name = .ok m := by
  intro n
  induction n with
  | zero => intro s name hw; cases hw
  | succ n ih =>
    intro s name hw
    have hw' : wellShapedStep (wellShapedFuel n) s = true := hw
    exact compileStep_ok s name hw' (fun j t hj => ih j t hj)

/-! ### Field names, order and required-ness -/

theorem parseOneProp_required {f : Json → String → Except PyError PyType}
    (nm : String) (attrs : Json) (spec : PyType × FieldInfo)
    (h : parseOneProp f nm attrs = .ok spec) : spec.2.required = true := by
  cases attrs with
  | obj akvs =>
    simp only [parseOneProp] at h
    by_cases h1 : eqStr (pyGet akvs "type") "object" = true
    · simp only [h1, if_true] at h
      cases hf : f (.obj akvs) (pyCapitalize nm) with
      | error e => rw [hf] at h; cases h
      | ok nested =>
        rw [hf] at h
        injection h with h'
        rw [← h']
    · simp only [Bool.not_eq_true] at h1
      simp only [h1, Bool.false_eq_true, if_false] at h
      by_cases h2 : eqStr (pyGet akvs "type") "array" = true
      · simp only [h2, if_true] at h
        cases hitems : (pyGet akvs "items").getD (.obj []) with
        | obj ikvs =>
          rw [hitems] at h
          by_cases h3 : eqStr (pyGet ikvs "type") "object" = true
          · simp only [h3, if_true] at h
            cases hf : f (.obj ikvs) "DynamicModel" with
            | error e => rw [hf] at h; cases h
            | ok nested =>
              rw [hf] at h
              injection h with h'
              rw [← h']
          · simp only [Bool.not_eq_true] at h3
            simp only [h3, Bool.false_eq_true, if_false] at h
            cases hjt : json_type_to_python_type (pyGet ikvs "type") with
            | error e => rw [hjt] at h; cases h
            | ok t =>
              rw [hjt] at h
              injection h with h'
              rw [← h']
        | null => rw [hitems] at h; cases h
        | bool b => rw [hitems] at h; cases h
        | num lx => rw [hitems] at h; cases h
        | str s => rw [hitems] at h; cases h
        | arr elems => rw [hitems] at h; cases h
      · simp only [Bool.not_eq_true] at h2
        simp only [h2, Bool.false_eq_true, if_false] at h
        cases hjt : json_type_to_python_type (pyGet akvs "type") with
        | error e => rw [hjt] at h; cases h
        | ok t =>
          rw [hjt] at h
          injection h with h'
          rw [← h']
  | null => cases h
  | bool b => cases h
  | num lx => cases h
  | str s => cases h
  | arr elems => cases h

theorem parseProps_spec {f : Json → String → Except PyError PyType} :
    ∀ (props : List (String × Json))
      (specs : List (String × PyType × FieldInfo)),
      parseProps f props = .ok specs →
      specs.map Prod.fst = props.map Prod.fst ∧
        ∀ x ∈ specs, x.2.2.required = true := by
  intro props
  induction props with
  | nil =>
    intro specs h
    simp only [parseProps] at h
    injection h with h'
    subst h'
    simp
  | cons kv rest ih =>
    intro specs h
    obtain ⟨nm, attrs⟩ := kv
    simp only [parseProps] at h
    cases h1 : parseOneProp f nm attrs with
    | error e => rw [h1] at h; cases h
    | ok spec =>
      rw [h1] at h
      cases h2 : parseProps f rest with
      | error e => rw [h2] at h; cases h
      | ok others =>
        rw [h2] at h
        injection h with h'
        subst h'
        obtain ⟨ha, hb⟩ := ih others h2
        refine ⟨by simp [ha], ?_⟩
        intro x hx
        rcases List.mem_cons.mp hx with hx | hx
        · subst hx
          exact parseOneProp_required nm attrs spec h1
        · exact hb x hx

theorem eqStr_true_iff (v : Option Json) (s : String) :
    eqStr v s = true ↔ v = some (.str s) := by
  cases v with
  | none => simp [eqStr]
  | some j =>
    cases j with
    | str t => simp [eqStr]
    | null => simp [eqStr]
    | bool b => simp [eqStr]
    | num lx => simp [eqStr]
    | arr es => simp [eqStr]
    | obj kvs => simp [eqStr]

/-- The fields of a compiled model are exactly the schema's properties:
same names, same order, all required (for a properties dict, whose keys
are unique). -/
theorem create_model_fields (kvs props : List (String × Json))
    (name nm : String) (fields : List (String × PyType × FieldInfo))
    (hprops : (pyGet kvs "properties").getD (.obj []) = .obj props)
    (hnd : (props.map Prod.fst).Nodup)
    (h : create_pydantic_model_from_json_schema (.obj kvs) name =
      .ok (.model nm fields)) :
    nm = name ∧ fields.map Prod.fst = props.map Prod.fst ∧
      ∀ x ∈ fields, x.2.2.required = true := by
  have h' : compileStep (compileFuel (depthJ (.obj kvs))) (.obj kvs) name =
      .ok (.model nm fields) := h
  simp only [compileStep] at h'
  rw [hprops] at h'
  simp only at h'
  cases hps : parseProps (compileFuel (depthJ (.obj kvs))) props with
  | error e => rw [hps] at h'; cases h'
  | ok specs =>
    rw [hps] at h'
    injection h' with h''
    injection h'' with hn hf
    obtain ⟨ha, hb⟩ := parseProps_spec props specs hps
    have hfold : specs.foldl (fun acc kv => dictInsert acc kv.1 kv.2) [] = specs := by
      have h0 := foldl_dictInsert_nodup specs ([] : List (String × PyType × FieldInfo))
      simp only [List.map_nil, List.nil_append] at h0
      rw [h0 (by rw [ha]; exact hnd)]
    refine ⟨hn.symm, ?_, ?_⟩
    · rw [← hf, hfold, ha]
    · intro x hx
      rw [← hf, hfold] at hx
      exact hb x hx

/-- A schema with no `properties` key compiles to a model with zero
fields, with no error. -/
theorem create_no_properties (kvs : List (String × Json)) (name : String)
    (hp : pyGet kvs "properties" = none) :
    create_pydantic_model_from_json_schema (.obj kvs) name =
      .ok (.model name []) := by
  show compileStep (compileFuel (depthJ (.obj kvs))) (.obj kvs) name = _
  simp [compileStep, hp, parseProps]

/-- `json.loads` fails only with `malformedSchema`. -/
theorem json_loads_err (a : String) :
    ∀ e, json_loads a = .error e → e = .malformedSchema := by
  intro e h
  simp only [json_loads] at h
  cases hp : parseValueFuel (2 * a.length + 16) (skipWs a.data) with
  | none => rw [hp] at h; injection h with h'; exact h'.symm
  | some p =>
    obtain ⟨v, rest⟩ := p
    rw [hp] at h
    by_cases hr : (skipWs rest).isEmpty = true
    · simp [hr] at h
    · simp only [Bool.not_eq_true] at hr
      simp [hr] at h
      exact h.symm

/-! ### The claims -/

/-- Claim C1, counterexample: the claim says compilation never raises for
any mapping whatever the shapes of the values under `properties` or the
property attributes; but for the mapping schema whose `properties` value
is the number 5 the code raises `AttributeError` (an int has no
`.items()`), and for the mapping schema whose property `p` has the list
`[]` as its `type` the code raises `TypeError`
(`type_mapping.get` cannot hash a list key). -/
theorem C1_counterexample :
    create_pydantic_model_from_json_schema
      (Json.obj [("properties", Json.num "5")]) "DynamicModel" =
      .error .attributeError ∧
    create_pydantic_model_from_json_schema
      (Json.obj [("properties", Json.obj
        [("p", Json.obj [("type", Json.arr [])])])]) "DynamicModel" =
      .error .typeError :=
  ⟨rfl, rfl⟩

/-- Claim C1, amended: compilation returns a model for every
shape-well-formed schema — one in which every value the compiler accesses
as a dict (the schema, its `properties` value, each property's attribute
node, each present `items` value) is a dict, and every `type` value that
reaches the primitive-table lookup is hashable (not a list or dict).
Subject to those conditions no schema is rejected, whatever the
unrecognized `type` names or the property names. -/
theorem C1_theorem (s : Json) (name : String) (h : wellShaped s = true) :
    ∃ m, create_pydantic_model_from_json_schema s name = .ok m :=
  compileFuel_ok (depthJ s + 1) s name h

/-- Claim C1, witness: a schema with an oddly named property of unknown
type and a nested object property is shape-well-formed and compiles. -/
theorem C1_witness :
    wellShaped (Json.obj [("properties", Json.obj
      [("weird name!", Json.obj [("type", Json.str "frobnicate")]),
       ("nested", Json.obj [("type", Json.str "object"),
         ("properties", Json.obj [])])])]) = true ∧
    ∃ m, create_pydantic_model_from_json_schema
      (Json.obj [("properties", Json.obj
        [("weird name!", Json.obj [("type", Json.str "frobnicate")]),
         ("nested", Json.obj [("type", Json.str "object"),
           ("properties", Json.obj [])])])]) "DynamicModel" = .ok m :=
  ⟨rfl, C1_theorem _ "DynamicModel" rfl⟩

/-- Claim C2: whenever compilation of a mapping schema returns a model,
that model carries the requested name and has exactly one field per entry
of the schema's `properties` mapping, the field names an exact copy of
the property names in insertion order, every field required; and a schema
without a `properties` key compiles, with no error, to a model with zero
fields. -/
theorem C2_theorem :
    (∀ (kvs props : List (String × Json)) (name nm : String)
       (fields : List (String × PyType × FieldInfo)),
       (pyGet kvs "properties").getD (.obj []) = .obj props →
       (props.map Prod.fst).Nodup →
       create_pydantic_model_from_json_schema (.obj kvs) name =
         .ok (.model nm fields) →
       nm = name ∧ fields.map Prod.fst = props.map Prod.fst ∧
         ∀ x ∈ fields, x.2.2.required = true) ∧
    (∀ (kvs : List (String × Json)) (name : String),
       pyGet kvs "properties" = none →
       create_pydantic_model_from_json_schema (.obj kvs) name =
         .ok (.model name [])) :=
  ⟨create_model_fields, create_no_properties⟩

/-- Claim C2, witness: a two-property schema compiles to a model with the
two field names copied in order, both required. -/
theorem C2_witness :
    (pyGet [("properties", Json.obj [("b", Json.obj [("type", Json.str "string")]),
        ("a", Json.obj [])])] "properties").getD (.obj []) =
      .obj [("b", Json.obj [("type", Json.str "string")]), ("a", Json.obj [])] ∧
    (([("b", Json.obj [("type", Json.str "string")]),
        ("a", Json.obj [])] : List (String × Json)).map Prod.fst).Nodup ∧
    ("M" = "M" ∧
      ([("b", PyType.str, FieldInfo.mk true Json.null),
        ("a", PyType.any, FieldInfo.mk true Json.null)] :
          List (String × PyType × FieldInfo)).map Prod.fst =
        ([("b", Json.obj [("type", Json.str "string")]),
          ("a", Json.obj [])] : List (String × Json)).map Prod.fst ∧
      ∀ x ∈ ([("b", PyType.str, FieldInfo.mk true Json.null),
        ("a", PyType.any, FieldInfo.mk true Json.null)] :
          List (String × PyType × FieldInfo)), x.2.2.required = true) :=
  ⟨rfl, by decide,
    C2_theorem.1 [("properties", Json.obj [("b", Json.obj [("type", Json.str "string")]),
      ("a", Json.obj [])])]
      [("b", Json.obj [("type", Json.str "string")]), ("a", Json.obj [])]
      "M" "M"
      [("b", PyType.str, FieldInfo.mk true Json.null),
       ("a", PyType.any, FieldInfo.mk true Json.null)]
      rfl (by decide) rfl⟩

/-- Claim C3, counterexample: the claim maps every value other than the
six recognized names to the any type, but a list-valued or dict-valued
`type` is an unhashable `dict.get` key: `type_mapping.get` raises
`TypeError`, and a schema containing such a property fails to compile
instead of producing an any-typed field. -/
theorem C3_counterexample :
    json_type_to_python_type (some (Json.arr [])) = .error .typeError ∧
    json_type_to_python_type (some (Json.obj [])) = .error .typeError ∧
    create_pydantic_model_from_json_schema
      (Json.obj [("properties", Json.obj
        [("p", Json.obj [("type", Json.arr [])])])]) "DynamicModel" =
      .error .typeError :=
  ⟨rfl, rfl, rfl⟩

/-- Claim C3, amended: the primitive-type mapping is exactly
integer↦int, string↦str, number↦float, boolean↦bool, object↦dict,
array↦list; a missing `type` and any other hashable value (null, a
boolean, a number, an unrecognized name such as "frobnicate") maps to
`Any` without failure; but a list- or dict-valued `type` raises
`TypeError`. -/
theorem C3_theorem :
    json_type_to_python_type (some (.str "integer")) = .ok .int ∧
    json_type_to_python_type (some (.str "string")) = .ok .str ∧
    json_type_to_python_type (some (.str "number")) = .ok .float ∧
    json_type_to_python_type (some (.str "boolean")) = .ok .bool ∧
    json_type_to_python_type (some (.str "object")) = .ok .dict ∧
    json_type_to_python_type (some (.str "array")) = .ok .list ∧
    json_type_to_python_type none = .ok .any ∧
    json_type_to_python_type (some .null) = .ok .any ∧
    (∀ b, json_type_to_python_type (some (.bool b)) = .ok .any) ∧
    (∀ lx, json_type_to_python_type (some (.num lx)) = .ok .any) ∧
    (∀ s : String,
      s ∉ (["integer", "string", "number", "boolean", "object", "array"] :
        List String) →
      json_type_to_python_type (some (.str s)) = .ok .any) ∧
    (∀ elems, json_type_to_python_type (some (.arr elems)) =
      .error .typeError) ∧
    (∀ kvs, json_type_to_python_type (some (.obj kvs)) =
      .error .typeError) ∧
    create_pydantic_model_from_json_schema
      (Json.obj [("properties", Json.obj
        [("p", Json.obj [("type", Json.str "frobnicate")])])]) "DynamicModel" =
      .ok (.model "DynamicModel" [("p", PyType.any, FieldInfo.mk true Json.null)]) := by
  refine ⟨rfl, rfl, rfl, rfl, rfl, rfl, rfl, rfl, (fun b => rfl), (fun lx => rfl),
    ?_, (fun elems => rfl), (fun kvs => rfl), rfl⟩
  intro s hs
  simp only [List.mem_cons, List.not_mem_nil, or_false, not_or] at hs
  obtain ⟨h1, h2, h3, h4, h5, h6⟩ := hs
  simp [json_type_to_python_type, h1, h2, h3, h4, h5, h6]

/-- Claim C3, witness: "frobnicate" is not one of the six recognized type
names and maps to `Any`. -/
theorem C3_witness :
    "frobnicate" ∉ (["integer", "string", "number", "boolean", "object",
      "array"] : List String) ∧
    json_type_to_python_type (some (.str "frobnicate")) = .ok .any :=
  ⟨by decide, C3_theorem.2.2.2.2.2.2.2.2.2.2.1 "frobnicate" (by decide)⟩

/-- Claim C4, counterexample: the claim's otherwise-branch promises a
compiled sequence field for every non-object items type, but when the
items' `type` is a dict the primitive-table lookup raises `TypeError`
and nothing is compiled. -/
theorem C4_counterexample :
    create_pydantic_model_from_json_schema
      (Json.obj [("properties", Json.obj [("a", Json.obj
        [("type", Json.str "array"),
         ("items", Json.obj [("type", Json.obj [])])])])]) "DynamicModel" =
      .error .typeError := rfl

/-- Claim C4, amended: for a property of type `array`, when the items'
type is `object` the field's type is a required list of the model
obtained by recursively compiling the items node under the default name
"DynamicModel"; otherwise, whenever the primitive-table lookup of the
items' type succeeds (its value is not a list or dict), the field's type
is a required list of the table image — a list- or dict-valued items
type instead raises `TypeError`.  In particular an array of objects with
properties x: integer compiles to a list of models with one required
integer field named x. -/
theorem C4_theorem :
    (∀ (fuel : Nat) (nm : String) (akvs ikvs : List (String × Json))
       (ty : PyType) (fi : FieldInfo),
       eqStr (pyGet akvs "type") "array" = true →
       (pyGet akvs "items").getD (.obj []) = .obj ikvs →
       parseOneProp (compileFuel fuel) nm (.obj akvs) = .ok (ty, fi) →
       fi.required = true ∧
       ((eqStr (pyGet ikvs "type") "object" = true ∧
           ∃ m, compileFuel fuel (.obj ikvs) "DynamicModel" = .ok m ∧
             ty = .listOf m) ∨
        (eqStr (pyGet ikvs "type") "object" = false ∧
           ∃ t, json_type_to_python_type (pyGet ikvs "type") = .ok t ∧
             ty = .listOf t))) ∧
    create_pydantic_model_from_json_schema
      (Json.obj [("properties", Json.obj [("a", Json.obj
        [("type", Json.str "array"),
         ("items", Json.obj [("type", Json.str "object"),
           ("properties", Json.obj
             [("x", Json.obj [("type", Json.str "integer")])])])])])])
      "DynamicModel" =
      .ok (.model "DynamicModel"
        [("a",
          PyType.listOf (.model "DynamicModel"
            [("x", PyType.int, FieldInfo.mk true Json.null)]),
          FieldInfo.mk true Json.null)]) := by
  constructor
  · intro fuel nm akvs ikvs ty fi harr hitems h
    have hv : pyGet akvs "type" = some (.str "array") :=
      (eqStr_true_iff _ _).mp harr
    have hno : eqStr (pyGet akvs "type") "object" = false := by rw [hv]; rfl
    simp only [parseOneProp, hno, Bool.false_eq_true, if_false, harr,
      if_true] at h
    rw [hitems] at h
    simp only at h
    by_cases h3 : eqStr (pyGet ikvs "type") "object" = true
    · simp only [h3, if_true] at h
      cases hf : compileFuel fuel (.obj ikvs) "DynamicModel" with
      | error e => rw [hf] at h; cases h
      | ok m =>
        rw [hf] at h
        injection h with h'
        rw [Prod.mk.injEq] at h'
        obtain ⟨hty, hfi⟩ := h'
        exact ⟨by rw [← hfi], Or.inl ⟨h3, m, rfl, hty.symm⟩⟩
    · simp only [Bool.not_eq_true] at h3
      simp only [h3, Bool.false_eq_true, if_false] at h
      cases hjt : json_type_to_python_type (pyGet ikvs "type") with
      | error e => rw [hjt] at h; cases h
      | ok t =>
        rw [hjt] at h
        injection h with h'
        rw [Prod.mk.injEq] at h'
        obtain ⟨hty, hfi⟩ := h'
        exact ⟨by rw [← hfi], Or.inr ⟨h3, t, rfl, hty.symm⟩⟩
  · rfl

/-- Claim C4, witness: an array-of-objects property whose items carry
properties x: integer yields a list of the recursively compiled model. -/
theorem C4_witness :
    eqStr (pyGet [("type", Json.str "array"),
      ("items", Json.obj [("type", Json.str "object"),
        ("properties", Json.obj [("x", Json.obj [("type", Json.str "integer")])])])]
      "type") "array" = true ∧
    (pyGet [("type", Json.str "array"),
      ("items", Json.obj [("type", Json.str "object"),
        ("properties", Json.obj [("x", Json.obj [("type", Json.str "integer")])])])]
      "items").getD (.obj []) =
      .obj [("type", Json.str "object"),
        ("properties", Json.obj [("x", Json.obj [("type", Json.str "integer")])])] ∧
    ((FieldInfo.mk true Json.null).required = true ∧
      ((eqStr (pyGet [("type", Json.str "object"),
          ("properties", Json.obj [("x", Json.obj [("type", Json.str "integer")])])]
          "type") "object" = true ∧
        ∃ m, compileFuel 3
            (.obj [("type", Json.str "object"),
              ("properties", Json.obj [("x", Json.obj [("type", Json.str "integer")])])])
            "DynamicModel" = .ok m ∧
          PyType.listOf (.model "DynamicModel"
            [("x", PyType.int, FieldInfo.mk true Json.null)]) = .listOf m) ∨
       (eqStr (pyGet [("type", Json.str "object"),
          ("properties", Json.obj [("x", Json.obj [("type", Json.str "integer")])])]
          "type") "object" = false ∧
        ∃ t, json_type_to_python_type (pyGet
            [("type", Json.str "object"),
             ("properties", Json.obj [("x", Json.obj [("type", Json.str "integer")])])]
            "type") = .ok t ∧
          PyType.listOf (.model "DynamicModel"
            [("x", PyType.int, FieldInfo.mk true Json.null)]) = .listOf t))) :=
  ⟨rfl, rfl,
    C4_theorem.1 3 "a"
      [("type", Json.str "array"),
       ("items", Json.obj [("type", Json.str "object"),
         ("properties", Json.obj [("x", Json.obj [("type", Json.str "integer")])])])]
      [("type", Json.str "object"),
       ("properties", Json.obj [("x", Json.obj [("type", Json.str "integer")])])]
      (PyType.listOf (.model "DynamicModel"
        [("x", PyType.int, FieldInfo.mk true Json.null)]))
      (FieldInfo.mk true Json.null)
      rfl rfl rfl⟩

/-- Claim C5: for a property of type `object` the compiler recursively
compiles the property's attribute node itself under the capitalized
property name, and the field is one required instance of that nested
model (with the property's description attached). -/
theorem C5_theorem (fuel : Nat) (nm : String) (akvs : List (String × Json))
    (hobj : eqStr (pyGet akvs "type") "object" = true) :
    parseOneProp (compileFuel fuel) nm (.obj akvs) =
      Except.map (fun nested =>
          (nested, FieldInfo.mk true ((pyGet akvs "description").getD .null)))
        (compileFuel fuel (.obj akvs) (pyCapitalize nm)) := by
  simp only [parseOneProp, hobj, if_true]
  cases compileFuel fuel (.obj akvs) (pyCapitalize nm) with
  | error e => rfl
  | ok nested => rfl

/-- Claim C5, witness: an object-typed property named myProp is compiled
by recursively compiling its own attribute node under the name
"Myprop". -/
theorem C5_witness :
    eqStr (pyGet [("type", Json.str "object"),
      ("properties", Json.obj [("x", Json.obj [])])] "type") "object" = true ∧
    parseOneProp (compileFuel 3) "myProp"
      (.obj [("type", Json.str "object"),
        ("properties", Json.obj [("x", Json.obj [])])]) =
      Except.map (fun nested =>
          (nested, FieldInfo.mk true
            ((pyGet [("type", Json.str "object"),
              ("properties", Json.obj [("x", Json.obj [])])] "description").getD .null)))
        (compileFuel 3
          (.obj [("type", Json.str "object"),
            ("properties", Json.obj [("x", Json.obj [])])])
          (pyCapitalize "myProp")) ∧
    pyCapitalize "myProp" = "Myprop" :=
  ⟨rfl, C5_theorem 3 "myProp" _ rfl, rfl⟩

/-- Claim C6: `get_artifact_model` fails with `MalformedSchema` exactly
when the stored artifact string is not parseable; deserialization errors
are always `MalformedSchema`, propagated unchanged; and a failing call
produces no model. -/
theorem C6_theorem (a : String) :
    (get_artifact_model a = .error .malformedSchema ↔
      json_loads a = .error .malformedSchema) ∧
    (∀ e, json_loads a = .error e → e = .malformedSchema) ∧
    (∀ e, get_artifact_model a = .error e →
      ∀ m, get_artifact_model a ≠ .ok m) := by
  refine ⟨⟨?_, ?_⟩, json_loads_err a, ?_⟩
  · intro h
    simp only [get_artifact_model] at h
    cases hj : json_loads a with
    | error e =>
      rw [hj] at h
      injection h with h'
      rw [← h']
    | ok v =>
      rw [hj] at h
      rcases create_pydantic_err v "DynamicModel" _ h with h' | h' <;> cases h'
  · intro h
    simp only [get_artifact_model]
    rw [h]
  · intro e he m hm
    rw [he] at hm
    cases hm

/-- Claim C6, witness: the unterminated string "\x7b" is unparseable, so
`get_artifact_model` fails with `MalformedSchema` and yields no model. -/
theorem C6_witness :
    get_artifact_model "\x7b" = .error .malformedSchema ∧
    PyError.malformedSchema = .malformedSchema ∧
    ∀ m, get_artifact_model "\x7b" ≠ .ok m :=
  ⟨( C6_theorem "\x7b").1.mpr rfl,
   ( C6_theorem "\x7b").2.1 .malformedSchema rfl,
   ( C6_theorem "\x7b").2.2 .malformedSchema (( C6_theorem "\x7b").1.mpr rfl)⟩

set_option maxRecDepth 400000 in
/-- Claim C7: deserializing the default stored artifact string (the
serialized schema of the two-field ArtifactModel) and compiling it yields
a model with exactly two required text fields, final_response then
conversation_status, in that order. -/
theorem C7_theorem :
    get_artifact_model default_artifact =
      .ok (.model "DynamicModel"
        [("final_response", PyType.str,
          FieldInfo.mk true
            (Json.str "The final response from the agent to the user.")),
         ("conversation_status", PyType.str,
          FieldInfo.mk true
            (Json.str "The status of the conversation."))]) := rfl

/-- Claim C8: compilation is a pure function of its input — two runs on
the same document return structurally identical results. -/
theorem C8_theorem (s : Json) (name : String)
    (r1 r2 : Except PyError PyType)
    (h1 : r1 = create_pydantic_model_from_json_schema s name)
    (h2 : r2 = create_pydantic_model_from_json_schema s name) : r1 = r2 :=
  h1.trans h2.symm

/-- Claim C8, witness: two runs on the empty-object schema agree. -/
theorem C8_witness :
    (Except.ok (PyType.model "M" []) : Except PyError PyType) =
      create_pydantic_model_from_json_schema (Json.obj []) "M" ∧
    (Except.ok (PyType.model "M" []) : Except PyError PyType) =
      (Except.ok (PyType.model "M" []) : Except PyError PyType) :=
  ⟨rfl, C8_theorem (Json.obj []) "M"
    (Except.ok (PyType.model "M" [])) (Except.ok (PyType.model "M" []))
    rfl rfl⟩

/-- Claim C9: for every finite schema tree, any fuel exceeding the
nesting depth gives the compiler's result — the recursion is bounded by
the nesting depth, terminates, and never hits the recursion limit. -/
theorem C9_theorem (s : Json) (name : String) (fuel : Nat)
    (h : depthJ s < fuel) :
    compileFuel fuel s name = create_pydantic_model_from_json_schema s name ∧
    create_pydantic_model_from_json_schema s name ≠ .error .recursionError := by
  constructor
  · exact compileFuel_stable fuel (depthJ s + 1) s name h (by omega)
  · intro hc
    rcases create_pydantic_err s name _ hc with h' | h' <;> cases h'

/-- Claim C9, witness: a depth-2 schema compiles identically under any
larger fuel and never exhausts the recursion budget. -/
theorem C9_witness :
    depthJ (Json.obj [("properties", Json.obj [])]) < 5 ∧
    compileFuel 5 (Json.obj [("properties", Json.obj [])]) "M" =
      create_pydantic_model_from_json_schema
        (Json.obj [("properties", Json.obj [])]) "M" ∧
    create_pydantic_model_from_json_schema
      (Json.obj [("properties", Json.obj [])]) "M" ≠ .error .recursionError :=
  ⟨by decide,
   (C9_theorem (Json.obj [("properties", Json.obj [])]) "M" 5 (by decide)).1,
   (C9_theorem (Json.obj [("properties", Json.obj [])]) "M" 5 (by decide)).2⟩

/-- Claim C10: an array-typed property with no `items` key (or whose
items node has no `type`) compiles, without failure, to a required list
of `Any`, the absent items node being treated as the empty dict. -/
theorem C10_theorem (fuel : Nat) (nm : String) (akvs : List (String × Json))
    (harr : eqStr (pyGet akvs "type") "array" = true) :
    (pyGet akvs "items" = none →
      parseOneProp (compileFuel fuel) nm (.obj akvs) =
        .ok (.listOf .any,
          FieldInfo.mk true ((pyGet akvs "description").getD .null))) ∧
    (∀ ikvs, pyGet akvs "items" = some (.obj ikvs) →
      pyGet ikvs "type" = none →
      parseOneProp (compileFuel fuel) nm (.obj akvs) =
        .ok (.listOf .any,
          FieldInfo.mk true ((pyGet akvs "description").getD .null))) := by
  have hv : pyGet akvs "type" = some (.str "array") :=
    (eqStr_true_iff _ _).mp harr
  have hno : eqStr (pyGet akvs "type") "object" = false := by rw [hv]; rfl
  constructor
  · intro hitems
    simp only [parseOneProp, hno, Bool.false_eq_true, if_false, harr, if_true,
      hitems, Option.getD_none]
    rfl
  · intro ikvs hitems hty
    simp only [parseOneProp, hno, Bool.false_eq_true, if_false, harr, if_true,
      hitems, Option.getD_some, hty]
    rfl

/-- Claim C10, witness: both shapes — `items` absent entirely, and
`items` present without a `type` — compile to a list of `Any`. -/
theorem C10_witness :
    (pyGet [("type", Json.str "array")] "items" = none ∧
      parseOneProp (compileFuel 3) "p" (.obj [("type", Json.str "array")]) =
        .ok (.listOf .any, FieldInfo.mk true Json.null)) ∧
    (pyGet [("type", Json.str "array"),
        ("items", Json.obj [("properties", Json.obj [])])] "items" =
        some (.obj [("properties", Json.obj [])]) ∧
      parseOneProp (compileFuel 3) "q"
        (.obj [("type", Json.str "array"),
          ("items", Json.obj [("properties", Json.obj [])])]) =
        .ok (.listOf .any, FieldInfo.mk true Json.null)) :=
  ⟨⟨rfl, (C10_theorem 3 "p" [("type", Json.str "array")] rfl).1 rfl⟩,
   ⟨rfl, (C10_theorem 3 "q"
      [("type", Json.str "array"),
       ("items", Json.obj [("properties", Json.obj [])])] rfl).2
      [("properties", Json.obj [])] rfl rfl⟩⟩
